import Mathlib

/-
  Verification of the ADR Surveillance and Safety-Gate engine
  (backend/app/services/adr_surveillance.py, backend/app/routes/adr_alerts.py,
  backend/app/routes/medications.py, backend/app/models/adr_surveillance.py).

  The embedding is shallow: SQLAlchemy rows become Lean structures, the
  database session becomes an explicit `DB` value threaded through the
  route handlers, `datetime.utcnow()` becomes a `now : Nat` request
  instant (seconds), Python floats become `ℚ`, and Python truthiness of
  nullable columns is made explicit (`truthyInt`, `truthyStr`, emptiness
  of JSON lists).
-/

namespace Outreach

/-- Python `str.lower()` as used by every lexical comparison in the engine
(character-wise lowering, written over the character list). -/
def lower (s : String) : String := String.mk (s.data.map Char.toLower)

/-- Helper for Python's `needle in hay` on strings: contiguous-sublist test
on the character lists (the empty needle matches everything). -/
def charsContain (needle : List Char) : List Char → Bool
  | [] => needle.isEmpty
  | c :: rest => needle.isPrefixOf (c :: rest) || charsContain needle rest

/-- Python substring membership `needle in hay`. -/
def strIn (needle hay : String) : Bool := charsContain needle.data hay.data

/-- Python truthiness of a nullable integer column (`None` and `0` are falsy). -/
def truthyInt : Option Int → Bool
  | none => false
  | some n => n != 0

/-- Python truthiness of a nullable string column (`None` and `""` are falsy). -/
def truthyStr : Option String → Bool
  | none => false
  | some s => !s.isEmpty

/-- Knowledge-base row `MedicationAdverseReaction` (models/adr_surveillance.py).
JSON dict columns become association lists, JSON arrays become lists. -/
structure MedicationAdverseReaction where
  id : Nat
  medication_name : String
  generic_name : Option String
  drug_class : Option String
  reaction_name : String
  severity : String
  likelihood : Option String
  typical_onset_hours : Option Int
  typical_onset_days : Option Int
  observable_symptoms : List String
  vital_sign_changes : List (String × String)
  behavioral_changes : List String
  nursing_interventions : List String
  provider_notification_guidance : Option String
  when_to_escalate : Option String
  monitoring_recommendations : Option String
  risk_factors : List String
deriving Repr, DecidableEq

/-- Row `PatientObservation`; `observation_date` is `observation_datetime.date()`
as a day number (only the date takes part in onset arithmetic). -/
structure PatientObservation where
  id : Nat
  patient_id : Nat
  facility_id : Nat
  observation_type : String
  observation_text : String
  standardized_terms : List String
  observation_date : Int
  related_vital_signs : List (String × String)
  adr_surveillance_performed : Bool
  potential_adr_detected : Bool
deriving Repr, DecidableEq

/-- The slice of `Patient` the surveillance engine reads (`age` is the
computed property). -/
structure Patient where
  id : Nat
  facility_id : Nat
  age : Nat
  is_hospice : Bool
  comfort_measures_only : Bool
deriving Repr, DecidableEq

/-- The slice of `Medication` the engine and the administer route read;
`start_date` is a day number. -/
structure Medication where
  id : Nat
  patient_id : Nat
  name : String
  generic_name : Option String
  drug_class : Option String
  start_date : Option Int
  status : String
deriving Repr, DecidableEq

/-- Row `ADRAlert` with the columns the surveillance subsystem reads or
writes (pure display-text columns `alert_summary` and
`hospice_comfort_focus` are omitted: no route or service branches on them). -/
structure ADRAlert where
  id : Nat
  patient_id : Nat
  facility_id : Nat
  medication_id : Nat
  observation_id : Nat
  known_adr_id : Nat
  suspected_reaction : String
  confidence_level : String
  severity : String
  matching_symptoms : List String
  matching_vital_signs : List String
  matching_behaviors : List String
  correlation_score : ℚ
  days_since_medication_start : Option Int
  expected_onset_match : Bool
  patient_risk_factors : List String
  nursing_interventions : List String
  suggested_provider_orders : List String
  provider_notification_urgency : String
  requires_immediate_action : Bool
  is_hospice_patient : Bool
  status : String
  acknowledged_by_user_id : Option Nat
  acknowledged_at : Option Nat
  pharmacist_consulted : Bool
  pharmacist_intervention_id : Option Nat
  outcome : Option String
  action_taken : Option String
  escalation_guidance : Option String
  investigation_notes : Option String
  resolved_at : Option Nat
  resolved_by_user_id : Option Nat
deriving Repr, DecidableEq

/-- Property `ADRAlert.is_active`: status is one of the three live states. -/
def ADRAlert.is_active (a : ADRAlert) : Bool :=
  ["NEW", "ACKNOWLEDGED", "INVESTIGATING"].contains a.status

/-- The three terminal resolution statuses (`valid_final_statuses`). -/
def isTerminalStatus (s : String) : Bool :=
  ["CONFIRMED_ADR", "NOT_ADR", "DISMISSED"].contains s

/-- Row `ADRAlertAcknowledgment`; timestamps are seconds. -/
structure ADRAlertAcknowledgment where
  id : Nat
  alert_id : Nat
  user_id : Nat
  facility_id : Nat
  action_taken : String
  acknowledged_at : Nat
  expires_at : Nat
  verified_reaction_awareness : Bool
  verified_monitoring_parameters : Bool
  verified_escalation_criteria : Bool
  hold_reason : Option String
  hold_duration : Option String
  provider_notified : Bool
  provider_notified_at : Option Nat
  hold_order_obtained : Bool
  notes : Option String
  monitoring_plan : Option String
deriving Repr, DecidableEq

/-- Property `is_expired`: `datetime.utcnow() > expires_at`. -/
def ADRAlertAcknowledgment.is_expired (a : ADRAlertAcknowledgment) (now : Nat) : Bool :=
  decide (now > a.expires_at)

/-- Property `is_valid`: not expired and all three safety verifications. -/
def ADRAlertAcknowledgment.is_valid (a : ADRAlertAcknowledgment) (now : Nat) : Bool :=
  !(a.is_expired now) && (a.verified_reaction_awareness &&
    a.verified_monitoring_parameters && a.verified_escalation_criteria)

/-
  Correlation Engine (`ADRSurveillanceService._evaluate_correlation`).
-/

/-- Symptom-match block: lowercased set intersection, only taken when both
sides are truthy (non-empty). The result is duplicate-free, as `set` is. -/
def symptomMatches (obs : PatientObservation) (kb : MedicationAdverseReaction) : List String :=
  if obs.standardized_terms.isEmpty || kb.observable_symptoms.isEmpty then []
  else (obs.standardized_terms.map lower).dedup.filter
    (fun t => (kb.observable_symptoms.map lower).contains t)

/-- Size of `set(symptom.lower() for symptom in known_adr.observable_symptoms)`. -/
def symptomSetSize (kb : MedicationAdverseReaction) : Nat :=
  (kb.observable_symptoms.map lower).dedup.length

/-- Python `vs_name in observation.related_vital_signs` /
`observation.related_vital_signs.get(vs_name, '')` on the vital snapshot. -/
def lookupVS (snapshot : List (String × String)) (name : String) : Option String :=
  (snapshot.find? (fun p => p.fst == name)).map Prod.snd

/-- One iteration of the vital-sign loop. The accumulator is
(matching names, correlation-score contribution, max-score contribution);
note that in the source `max_score += 2.0` sits outside both inner `if`s,
so it runs for every candidate vital sign. -/
def vitalStep (snapshot : List (String × String))
    (st : List String × ℚ × ℚ) (p : String × String) : List String × ℚ × ℚ :=
  let upd : List String × ℚ :=
    match lookupVS snapshot p.fst with
    | some v => if strIn (lower p.snd) (lower v)
        then (st.1 ++ [p.fst], st.2.1 + 2) else (st.1, st.2.1)
    | none => (st.1, st.2.1)
  (upd.1, upd.2, st.2.2 + 2)

/-- The whole vital-sign block, guarded by the truthiness of both dicts. -/
def vitalScan (obs : PatientObservation) (kb : MedicationAdverseReaction) :
    List String × ℚ × ℚ :=
  if obs.related_vital_signs.isEmpty || kb.vital_sign_changes.isEmpty then ([], 0, 0)
  else kb.vital_sign_changes.foldl (vitalStep obs.related_vital_signs) ([], 0, 0)

/-- Behavioral block: only for BEHAVIOR observations; each matched term adds
2.0 to both sums, so the contributions stay paired. -/
def behaviorMatches (obs : PatientObservation) (kb : MedicationAdverseReaction) : List String :=
  if obs.observation_type == "BEHAVIOR" && !kb.behavioral_changes.isEmpty then
    kb.behavioral_changes.filter (fun b => strIn (lower b) (lower obs.observation_text))
  else []

/-- Accumulated `correlation_score` before normalisation. -/
def correlationNumerator (obs : PatientObservation) (kb : MedicationAdverseReaction) : ℚ :=
  (if (symptomMatches obs kb).isEmpty then 0
   else ((symptomMatches obs kb).length : ℚ) * 3)
  + (vitalScan obs kb).2.1
  + ((behaviorMatches obs kb).length : ℚ) * 2

/-- Accumulated `max_score` (the symptom term is only added when the
intersection is non-empty, exactly as in the source). -/
def correlationDenominator (obs : PatientObservation) (kb : MedicationAdverseReaction) : ℚ :=
  (if (symptomMatches obs kb).isEmpty then 0
   else (symptomSetSize kb : ℚ) * 3)
  + (vitalScan obs kb).2.2
  + ((behaviorMatches obs kb).length : ℚ) * 2

/-- Normalised pre-boost score: `min(correlation_score / max_score, 1.0)` when
`max_score > 0`, otherwise the raw accumulator is left as is. -/
def correlationBaseScore (obs : PatientObservation) (kb : MedicationAdverseReaction) : ℚ :=
  if 0 < correlationDenominator obs kb
  then min (correlationNumerator obs kb / correlationDenominator obs kb) 1
  else correlationNumerator obs kb

/-- Confidence tiering exactly as in the source. -/
def confidenceOf (s : ℚ) : String :=
  if 3/4 ≤ s then "VERY_HIGH"
  else if 1/2 ≤ s then "HIGH"
  else if 3/10 ≤ s then "MODERATE"
  else "LOW"

/-- Numeric rank of a confidence tier, for stating monotonicity. -/
def confidenceRank : String → Nat
  | "MODERATE" => 1
  | "HIGH" => 2
  | "VERY_HIGH" => 3
  | _ => 0

/-- Onset-timing block: returns (expected_onset_match, days_since_start,
adjusted score). Mirrors the `if medication.start_date:` guard and the
days/hours `elif` chain with Python truthiness on the onset columns. -/
def onsetAdjust (medication : Medication) (obs : PatientObservation)
    (kb : MedicationAdverseReaction) (score : ℚ) : Bool × Option Int × ℚ :=
  match medication.start_date with
  | none => (false, none, score)
  | some sd =>
    let days : Int := obs.observation_date - sd
    if truthyInt kb.typical_onset_days then
      let od : Int := kb.typical_onset_days.getD 0
      let margin : ℚ := max ((od : ℚ) * (1/2)) 2
      if |(days : ℚ) - (od : ℚ)| ≤ margin then (true, some days, min (score + 1/10) 1)
      else (false, some days, score)
    else if truthyInt kb.typical_onset_hours then
      let oh : Int := kb.typical_onset_hours.getD 0
      let margin : ℚ := max ((oh : ℚ) * (1/2)) 12
      if |((days * 24 : Int) : ℚ) - (oh : ℚ)| ≤ margin then (true, some days, min (score + 1/10) 1)
      else (false, some days, score)
    else (false, some days, score)

/-- Risk-factor block (currently only `elderly`, age ≥ 65). -/
def riskAdjust (patient : Patient) (kb : MedicationAdverseReaction) (score : ℚ) :
    List String × ℚ :=
  if kb.risk_factors.isEmpty then ([], score)
  else if kb.risk_factors.contains "elderly" ∧ 65 ≤ patient.age then
    (["elderly"], min (score + 1/20) 1)
  else ([], score)

/-- Urgency / immediate-action classification, split on hospice status. -/
def urgencyOf (is_hospice : Bool) (severity : String) (score : ℚ) : String × Bool :=
  if is_hospice then
    if severity = "LIFE_THREATENING" ∧ 1/2 ≤ score then ("URGENT", true)
    else if severity = "MAJOR" ∨ severity = "MODERATE" then
      (if 3/5 ≤ score then "URGENT" else "ROUTINE", false)
    else ("ROUTINE", false)
  else
    if severity = "LIFE_THREATENING" ∧ 1/2 ≤ score then ("STAT", true)
    else if severity = "MAJOR" ∧ 3/5 ≤ score then ("URGENT", true)
    else if severity = "MODERATE" ∨ severity = "MAJOR" then ("URGENT", false)
    else ("ROUTINE", false)

/-- Keyword list of `_extract_nursing_interventions`. -/
def nursingKeywords : List String :=
  ["assess", "monitor", "check", "observe", "document", "notify",
   "measure", "evaluate", "report", "increase frequency", "watch for",
   "comfort", "position", "encourage", "assist", "ensure", "review"]

/-- Explicit ordering-action words excluded from nursing scope. -/
def orderingWords : List String :=
  ["order", "prescribe", "change dose", "start medication", "stop medication"]

/-- Nursing-scope classification: keyword match, or anything that is not
explicitly an ordering action. -/
def extract_nursing_interventions (l : List String) : List String :=
  l.filter (fun i =>
    nursingKeywords.any (fun k => strIn k (lower i))
    || !(orderingWords.any (fun w => strIn w (lower i))))

/-- Keyword list of `_extract_provider_orders`. -/
def providerKeywords : List String :=
  ["order", "lab", "test", "x-ray", "imaging", "prescribe",
   "change dose", "adjust", "discontinue", "start", "add medication",
   "consult", "refer", "diagnosis"]

/-- Provider-scope classification. -/
def extract_provider_orders (l : List String) : List String :=
  l.filter (fun i => providerKeywords.any (fun k => strIn k (lower i)))

/-- The correlation evaluation `_evaluate_correlation`: gate first, then
confidence from the pre-boost score, then onset boost, then risk boost,
then urgency, building the `ADRAlert` row (id 0 until persisted). -/
def evaluate_correlation (observation : PatientObservation) (medication : Medication)
    (known_adr : MedicationAdverseReaction) (patient : Patient) : Option ADRAlert :=
  let matching_symptoms := symptomMatches observation known_adr
  let matching_vital_signs := (vitalScan observation known_adr).1
  let matching_behaviors := behaviorMatches observation known_adr
  let score0 := correlationBaseScore observation known_adr
  if matching_symptoms.isEmpty ∧ matching_vital_signs.length + matching_behaviors.length < 2
  then none
  else
    let confidence := confidenceOf score0
    let onsetR := onsetAdjust medication observation known_adr score0
    let riskR := riskAdjust patient known_adr onsetR.2.2
    let is_hospice := patient.is_hospice || patient.comfort_measures_only
    let urgR := urgencyOf is_hospice known_adr.severity riskR.2
    some
      { id := 0
        patient_id := observation.patient_id
        facility_id := observation.facility_id
        medication_id := medication.id
        observation_id := observation.id
        known_adr_id := known_adr.id
        suspected_reaction := known_adr.reaction_name
        confidence_level := confidence
        severity := known_adr.severity
        matching_symptoms := matching_symptoms
        matching_vital_signs := matching_vital_signs
        matching_behaviors := matching_behaviors
        correlation_score := riskR.2
        days_since_medication_start := onsetR.2.1
        expected_onset_match := onsetR.1
        patient_risk_factors := riskR.1
        nursing_interventions := extract_nursing_interventions known_adr.nursing_interventions
        suggested_provider_orders := extract_provider_orders known_adr.nursing_interventions
        provider_notification_urgency := urgR.1
        requires_immediate_action := urgR.2
        is_hospice_patient := is_hospice
        status := "NEW"
        acknowledged_by_user_id := none
        acknowledged_at := none
        pharmacist_consulted := false
        pharmacist_intervention_id := none
        outcome := none
        action_taken := none
        escalation_guidance := known_adr.when_to_escalate
        investigation_notes := none
        resolved_at := none
        resolved_by_user_id := none }

/-
  Persistent state and the route handlers.
-/

/-- The slice of `User` the routes read. -/
structure User where
  id : Nat
  facility_id : Nat
  role : String
deriving Repr, DecidableEq

/-- The slice of `PharmacistIntervention` written by the escalation route. -/
structure PharmacistIntervention where
  id : Nat
  patient_id : Nat
  facility_id : Nat
  medication_id : Nat
  intervention_type : String
  severity : String
  initiated_by_user_id : Option Nat
deriving Repr, DecidableEq

/-- The database session: table contents plus fresh primary keys. -/
structure DB where
  patients : List Patient
  medications : List Medication
  observations : List PatientObservation
  known_adrs : List MedicationAdverseReaction
  alerts : List ADRAlert
  acknowledgments : List ADRAlertAcknowledgment
  interventions : List PharmacistIntervention
  next_alert_id : Nat
  next_ack_id : Nat
  next_intervention_id : Nat
deriving Repr, DecidableEq

/-- Primary-key lookup `ADRAlert.query.get`. -/
def findAlert (db : DB) (alert_id : Nat) : Option ADRAlert :=
  db.alerts.find? (fun a => a.id == alert_id)

/-- Primary-key lookup `PatientObservation.query.get`. -/
def findObservation (db : DB) (observation_id : Nat) : Option PatientObservation :=
  db.observations.find? (fun o => o.id == observation_id)

/-- Primary-key lookup `Medication.query.get`. -/
def findMedication (db : DB) (medication_id : Nat) : Option Medication :=
  db.medications.find? (fun m => m.id == medication_id)

/-- Primary-key lookup `Patient.query.get`. -/
def findPatient (db : DB) (patient_id : Nat) : Option Patient :=
  db.patients.find? (fun p => p.id == patient_id)

/-- Write back a mutated alert row. -/
def updateAlert (db : DB) (a : ADRAlert) : DB :=
  { db with alerts := db.alerts.map (fun b => if b.id == a.id then a else b) }

/-- Write back a mutated observation row. -/
def updateObservation (db : DB) (o : PatientObservation) : DB :=
  { db with observations := db.observations.map (fun b => if b.id == o.id then o else b) }

/-- The staff member's most recent acknowledgment for an alert
(`order_by(acknowledged_at.desc()).first()`). -/
def mostRecentAck (db : DB) (alert_id user_id : Nat) : Option ADRAlertAcknowledgment :=
  (db.acknowledgments.filter (fun a => a.alert_id == alert_id && a.user_id == user_id)).foldl
    (fun acc a =>
      match acc with
      | none => some a
      | some b => if b.acknowledged_at < a.acknowledged_at then some a else some b)
    none

/-- Request body of POST `/adr-alerts/<id>/acknowledge`; absent boolean keys
read through `data.get(...)` are falsy, hence plain `Bool` fields. -/
structure AcknowledgeRequest where
  action : Option String
  verified_reaction_awareness : Bool
  verified_monitoring_parameters : Bool
  verified_escalation_criteria : Bool
  notes : Option String
  monitoring_plan : Option String
  hold_reason : Option String
  hold_duration : Option String
  provider_notified : Bool
  provider_notified_at : Option Nat
  hold_order_obtained : Bool
deriving Repr, DecidableEq

/-- Outcome of the acknowledge route: an HTTP error, the idempotent
already-acknowledged reply, or a freshly created acknowledgment. -/
inductive AckResponse where
  | failure (http_code : Nat) (error : String)
  | alreadyAcknowledged (ack : ADRAlertAcknowledgment)
  | created (ack : ADRAlertAcknowledgment) (alert : ADRAlert)
deriving Repr, DecidableEq

/-- Creation tail of the acknowledge route: build the acknowledgment row
(expiry fixed at `now + 12h`), apply the first-acknowledgment transition
when the alert is still NEW, and persist both. -/
def createAcknowledgment (db : DB) (now : Nat) (user : User) (alert : ADRAlert)
    (action : String) (data : AcknowledgeRequest) : AckResponse × DB :=
  let ack : ADRAlertAcknowledgment :=
    { id := db.next_ack_id
      alert_id := alert.id
      user_id := user.id
      facility_id := user.facility_id
      action_taken := action
      acknowledged_at := now
      expires_at := now + 12 * 3600
      verified_reaction_awareness := data.verified_reaction_awareness
      verified_monitoring_parameters := data.verified_monitoring_parameters
      verified_escalation_criteria := data.verified_escalation_criteria
      hold_reason := if action = "HOLD_MEDICATION" then data.hold_reason else none
      hold_duration := if action = "HOLD_MEDICATION" then data.hold_duration else none
      provider_notified := if action = "HOLD_MEDICATION" then data.provider_notified else false
      provider_notified_at := if action = "HOLD_MEDICATION" then data.provider_notified_at else none
      hold_order_obtained := if action = "HOLD_MEDICATION" then data.hold_order_obtained else false
      notes := data.notes
      monitoring_plan := data.monitoring_plan }
  let alert' :=
    if alert.status = "NEW" then
      { alert with status := "ACKNOWLEDGED"
                   acknowledged_by_user_id := some user.id
                   acknowledged_at := some now }
    else alert
  let db' :=
    { updateAlert db alert' with
        acknowledgments := db.acknowledgments ++ [ack]
        next_ack_id := db.next_ack_id + 1 }
  (.created ack alert', db')

/-- Route POST `/adr-alerts/<id>/acknowledge` (routes/adr_alerts.py):
after the 404 lookup, the logging line at adr_alerts.py:397 reads
`alert.alert_type`, an attribute the `ADRAlert` model does not define, so
every request for an existing alert raises AttributeError and answers
HTTP 500 before any guard, validation or mutation runs; the store is
untouched. -/
def acknowledge_alert (db : DB) (now : Nat) (user : User) (alert_id : Nat)
    (data : AcknowledgeRequest) : AckResponse × DB :=
  match findAlert db alert_id with
  | none => (.failure 404 "Not found", db)
  | some _ =>
    (.failure 500 "AttributeError: ADRAlert object has no attribute alert_type", db)

/-- The acknowledge handler from adr_alerts.py:399 onward — access check,
terminal-alert guard, action/verification/hold validation, idempotent
return of a still-valid acknowledgment, creation with the 12-hour expiry —
which in the source is unreachable behind the line-397 AttributeError.
Modeled separately so that dead validation and creation code can be
compared with the behaviour the spec describes. -/
def acknowledge_alert_body (db : DB) (now : Nat) (user : User) (alert_id : Nat)
    (data : AcknowledgeRequest) : AckResponse × DB :=
  match findAlert db alert_id with
  | none => (.failure 404 "Not found", db)
  | some alert =>
    if alert.facility_id ≠ user.facility_id ∧ user.role ≠ "Admin" then
      (.failure 403 "Access denied", db)
    else if !alert.is_active then
      (.failure 400 "Alert is not active", db)
    else
      let action := data.action.getD "ACKNOWLEDGED"
      if ¬ (action = "ACKNOWLEDGED" ∨ action = "HOLD_MEDICATION") then
        (.failure 400 "Invalid action. Must be ACKNOWLEDGED or HOLD_MEDICATION", db)
      else if ¬ (data.verified_reaction_awareness ∧ data.verified_monitoring_parameters
                  ∧ data.verified_escalation_criteria) then
        (.failure 400 "All safety verifications required", db)
      else if action = "HOLD_MEDICATION" ∧ ¬ truthyStr data.hold_reason then
        (.failure 400 "hold_reason required when holding medication", db)
      else if action = "HOLD_MEDICATION" ∧ ¬ data.provider_notified then
        (.failure 400 "Provider must be notified when holding medication", db)
      else
        match mostRecentAck db alert_id user.id with
        | some existing =>
          if existing.is_valid now then (.alreadyAcknowledged existing, db)
          else createAcknowledgment db now user alert action data
        | none => createAcknowledgment db now user alert action data

/-- Outcome of the pharmacist-escalation route. -/
inductive EscalateResponse where
  | failure (http_code : Nat) (error : String)
  | success (alert : ADRAlert) (intervention : PharmacistIntervention)
deriving Repr, DecidableEq

/-- Route POST `/adr-alerts/<id>/escalate-pharmacist` (routes/adr_alerts.py):
404 and the 403 access check are reachable, but inside the try block the
audit call at line 564 passes keyword arguments `AuditLog.log_action` does
not accept (`user_id`, `details`, `contains_phi`, `facility_id`), raising
TypeError; the except clause rolls the session back and answers HTTP 500,
so the intervention insert and the INVESTIGATING status assignment built
at lines 540-561 are always discarded and the store is unchanged. -/
def escalate_to_pharmacist (db : DB) (user : User) (alert_id : Nat)
    (escalation_notes : Option String) : EscalateResponse × DB :=
  match findAlert db alert_id with
  | none => (.failure 404 "Not found", db)
  | some alert =>
    if alert.facility_id ≠ user.facility_id ∧ user.role ≠ "Admin" then
      (.failure 403 "Access denied", db)
    else
      (.failure 500 "TypeError: log_action() got an unexpected keyword argument user_id", db)

/-- Request body of the resolve route. -/
structure ResolveRequest where
  status : Option String
  outcome_notes : Option String
  action_taken : Option String
deriving Repr, DecidableEq

/-- Outcome of the resolve route. -/
inductive ResolveResponse where
  | failure (http_code : Nat) (error : String)
  | success (alert : ADRAlert)
deriving Repr, DecidableEq

/-- Route POST `/adr-alerts/<id>/resolve` (routes/adr_alerts.py): the 404,
the 403 access check and the two 400 validations (terminal target status,
outcome notes) are all reachable before the try block; inside it the audit
call at line 767 passes the same unaccepted keyword arguments to
`AuditLog.log_action`, raising TypeError, so the resolution mutations at
lines 760-764 are rolled back and the route answers HTTP 500 with the
store unchanged. -/
def resolve_alert (db : DB) (now : Nat) (user : User) (alert_id : Nat)
    (data : ResolveRequest) : ResolveResponse × DB :=
  match findAlert db alert_id with
  | none => (.failure 404 "Not found", db)
  | some alert =>
    if alert.facility_id ≠ user.facility_id ∧ user.role ≠ "Admin" then
      (.failure 403 "Access denied", db)
    else if ¬ truthyStr data.status ∨ !isTerminalStatus (data.status.getD "") then
      (.failure 400 "status must be one of: CONFIRMED_ADR, NOT_ADR, DISMISSED", db)
    else if ¬ truthyStr data.outcome_notes then
      (.failure 400 "outcome_notes required when resolving alert", db)
    else
      (.failure 500 "TypeError: log_action() got an unexpected keyword argument user_id", db)

/-- Active alerts of a patient visible to the requesting user's facility,
shared by the administer safety check and the acknowledgment pre-check. -/
def activeAlertsFor (db : DB) (user : User) (patient_id : Nat) : List ADRAlert :=
  db.alerts.filter (fun a =>
    a.patient_id == patient_id && a.facility_id == user.facility_id && a.is_active)

/-- Result of the ADR safety check inside POST `/medications/<id>/administer`. -/
inductive AdministerSafety where
  | notFound
  | accessDenied
  | medicationOnHold (held : List (ADRAlert × ADRAlertAcknowledgment))
  | alertsNotAcknowledged (unacknowledged expired : List ADRAlert)
  | proceed
deriving Repr, DecidableEq

/-- Whether the safety check lets the administration proceed. -/
def AdministerSafety.allowed : AdministerSafety → Bool
  | .proceed => true
  | _ => false

/-- The ADR safety gate of POST `/medications/<id>/administer`
(routes/medications.py): only for status "given"; for each active alert the
staff member's most recent acknowledgment is classified no-acknowledgment /
expired / per-medication hold, holds blocking first. -/
def administer_medication_check (db : DB) (now : Nat) (user : User)
    (medication_id : Nat) (status : String) : AdministerSafety :=
  match findMedication db medication_id with
  | none => .notFound
  | some medication =>
    match findPatient db medication.patient_id with
    | none => .notFound
    | some patient =>
      if patient.facility_id ≠ user.facility_id ∧ user.role ≠ "Admin" then .accessDenied
      else if status ≠ "given" then .proceed
      else
        let active_alerts := activeAlertsFor db user patient.id
        if active_alerts.isEmpty then .proceed
        else
          let unacknowledged := active_alerts.filter
            (fun a => (mostRecentAck db a.id user.id).isNone)
          let expired := active_alerts.filter (fun a =>
            match mostRecentAck db a.id user.id with
            | some k => k.is_expired now
            | none => false)
          let held := active_alerts.filterMap (fun a =>
            match mostRecentAck db a.id user.id with
            | some k =>
              if !k.is_expired now ∧ k.action_taken = "HOLD_MEDICATION"
                  ∧ a.medication_id = medication_id
              then some (a, k) else none
            | none => none)
          if ¬ held.isEmpty then .medicationOnHold held
          else if ¬ unacknowledged.isEmpty ∨ ¬ expired.isEmpty then
            .alertsNotAcknowledged unacknowledged expired
          else .proceed

/-- Reply of GET `/adr-alerts/check-patient-acknowledgments/<patient_id>`. -/
structure AckCheckResult where
  can_administer : Bool
  unacknowledged_alerts : List ADRAlert
  expired_acknowledgments : List (ADRAlert × ADRAlertAcknowledgment)
  valid_acknowledgments : List ADRAlertAcknowledgment
deriving Repr, DecidableEq

/-- The acknowledgment pre-check route (routes/adr_alerts.py): classifies the
staff member's most recent acknowledgment per active alert; note it has no
medication in scope and never consults `action_taken`. -/
def check_patient_acknowledgments (db : DB) (now : Nat) (user : User)
    (patient_id : Nat) : AckCheckResult :=
  let active_alerts := activeAlertsFor db user patient_id
  if active_alerts.isEmpty then
    { can_administer := true
      unacknowledged_alerts := []
      expired_acknowledgments := []
      valid_acknowledgments := [] }
  else
    let unacknowledged := active_alerts.filter
      (fun a => (mostRecentAck db a.id user.id).isNone)
    let expired := active_alerts.filterMap (fun a =>
      match mostRecentAck db a.id user.id with
      | some k => if k.is_expired now then some (a, k) else none
      | none => none)
    let valid := active_alerts.filterMap (fun a =>
      match mostRecentAck db a.id user.id with
      | some k => if k.is_expired now then none else some k
      | none => none)
    { can_administer := unacknowledged.isEmpty && expired.isEmpty
      unacknowledged_alerts := unacknowledged
      expired_acknowledgments := expired
      valid_acknowledgments := valid }

/-- Knowledge-base candidates for a medication: case-insensitive substring
match on name or generic name, exact match on drug class, any one matching. -/
def candidateADRs (db : DB) (medication : Medication) : List MedicationAdverseReaction :=
  db.known_adrs.filter (fun kb =>
    strIn (lower medication.name) (lower kb.medication_name)
    || (match medication.generic_name, kb.generic_name with
        | some g, some kg => strIn (lower g) (lower kg)
        | _, _ => false)
    || (match medication.drug_class with
        | some c => kb.drug_class == some c
        | none => false))

/-- Number the freshly persisted alerts with consecutive primary keys. -/
def assignIds (start : Nat) : List ADRAlert → List ADRAlert
  | [] => []
  | a :: rest => { a with id := start } :: assignIds (start + 1) rest

/-- Fallback patient row; the source would fault on a dangling
`observation.patient` reference, which consistent stores never produce. -/
def missingPatient : Patient :=
  { id := 0, facility_id := 0, age := 0, is_hospice := false, comfort_measures_only := false }

/-- Service entry `ADRSurveillanceService.analyze_observation`: unknown ids
return an empty list with no state change; otherwise mark surveillance
performed, evaluate every candidate reaction of every active medication,
set the detection flag when alerts were produced, and persist them. -/
def analyze_observation (db : DB) (observation_id : Nat) : List ADRAlert × DB :=
  match findObservation db observation_id with
  | none => ([], db)
  | some observation =>
    let observation1 := { observation with adr_surveillance_performed := true }
    let active_medications := db.medications.filter
      (fun m => m.patient_id == observation.patient_id && m.status == "active")
    if active_medications.isEmpty then ([], updateObservation db observation1)
    else
      let patient := (findPatient db observation.patient_id).getD missingPatient
      let alerts := active_medications.foldr
        (fun med acc =>
          (candidateADRs db med).filterMap
            (fun kb => evaluate_correlation observation med kb patient) ++ acc)
        []
      let observation2 :=
        if alerts.isEmpty then observation1
        else { observation1 with potential_adr_detected := true }
      let persisted := assignIds db.next_alert_id alerts
      let db' :=
        { updateObservation db observation2 with
            alerts := db.alerts ++ persisted
            next_alert_id := db.next_alert_id + persisted.length }
      (persisted, db')

/-
  Concrete fixtures used by counterexamples and witnesses.
-/

/-- A nurse of facility 1. -/
def userRN : User := { id := 9, facility_id := 1, role := "RN" }

/-- Patient 1 of facility 1, aged 70. -/
def patientOne : Patient :=
  { id := 1, facility_id := 1, age := 70, is_hospice := false, comfort_measures_only := false }

/-- An active digoxin prescription for patient 1, started on day 0. -/
def medDigoxin : Medication :=
  { id := 3, patient_id := 1, name := "Digoxin", generic_name := none,
    drug_class := none, start_date := some 0, status := "active" }

/-- A freshly created alert row on patient 1 / medication 3. -/
def baseAlert : ADRAlert :=
  { id := 1, patient_id := 1, facility_id := 1, medication_id := 3,
    observation_id := 5, known_adr_id := 7,
    suspected_reaction := "Digoxin toxicity", confidence_level := "HIGH",
    severity := "MAJOR", matching_symptoms := ["nausea"],
    matching_vital_signs := [], matching_behaviors := [],
    correlation_score := 0, days_since_medication_start := none,
    expected_onset_match := false, patient_risk_factors := [],
    nursing_interventions := [], suggested_provider_orders := [],
    provider_notification_urgency := "URGENT", requires_immediate_action := false,
    is_hospice_patient := false, status := "NEW",
    acknowledged_by_user_id := none, acknowledged_at := none,
    pharmacist_consulted := false, pharmacist_intervention_id := none,
    outcome := none, action_taken := none, escalation_guidance := none,
    investigation_notes := none, resolved_at := none, resolved_by_user_id := none }

/-- An empty store. -/
def emptyDB : DB :=
  { patients := [], medications := [], observations := [], known_adrs := [],
    alerts := [], acknowledgments := [], interventions := [],
    next_alert_id := 1, next_ack_id := 1, next_intervention_id := 1 }

/-- Store with patient 1 and an alert already resolved as CONFIRMED_ADR. -/
def dbC3 : DB :=
  { emptyDB with
      patients := [patientOne], medications := [medDigoxin],
      alerts := [{ baseAlert with status := "CONFIRMED_ADR" }] }

/-- Store for the unknown-observation probe: observation 99 does not exist. -/
def dbC10 : DB := { emptyDB with patients := [patientOne], medications := [medDigoxin] }

/-- Store with one NEW alert and no acknowledgments yet. -/
def dbC6 : DB :=
  { emptyDB with patients := [patientOne], medications := [medDigoxin], alerts := [baseAlert] }

/-- A fully verified plain acknowledgment request (default action). -/
def reqFull : AcknowledgeRequest :=
  { action := none, verified_reaction_awareness := true, verified_monitoring_parameters := true,
    verified_escalation_criteria := true, notes := none, monitoring_plan := none,
    hold_reason := none, hold_duration := none, provider_notified := false,
    provider_notified_at := none, hold_order_obtained := false }

/-- The acknowledgment row the creation tail `acknowledge_alert_body`
builds from `reqFull` at instant 1000 (expiry 1000 + 12h = 44200). -/
def ackC6 : ADRAlertAcknowledgment :=
  { id := 1, alert_id := 1, user_id := 9, facility_id := 1,
    action_taken := "ACKNOWLEDGED", acknowledged_at := 1000, expires_at := 44200,
    verified_reaction_awareness := true, verified_monitoring_parameters := true,
    verified_escalation_criteria := true, hold_reason := none, hold_duration := none,
    provider_notified := false, provider_notified_at := none, hold_order_obtained := false,
    notes := none, monitoring_plan := none }

/-- The alert row after the first-acknowledgment transition of the
creation tail. -/
def alertC6 : ADRAlert :=
  { baseAlert with status := "ACKNOWLEDGED",
                   acknowledged_by_user_id := some 9, acknowledged_at := some 1000 }

/-- The store after that acknowledgment: also a handy fixture of a store
in which nurse 9 holds a valid, non-hold acknowledgment of alert 1. -/
def dbC6after : DB :=
  { dbC6 with alerts := [alertC6], acknowledgments := [ackC6], next_ack_id := 2 }

/-- The same acknowledgment row with one verification flag unchecked. -/
def ackNoVerify : ADRAlertAcknowledgment :=
  { ackC6 with verified_reaction_awareness := false }

/-- A non-expired, fully verified HOLD_MEDICATION acknowledgment row. -/
def ackHold : ADRAlertAcknowledgment :=
  { ackC6 with action_taken := "HOLD_MEDICATION",
               hold_reason := some "Patient symptomatic", provider_notified := true }

/-- Store where nurse 9 holds medication 3 behind alert 1. -/
def dbC1 : DB := { dbC6 with acknowledgments := [ackHold] }

/-- A request missing one of the three safety verifications. -/
def reqMissingVerification : AcknowledgeRequest :=
  { reqFull with verified_escalation_criteria := false }

/-- Matching test of one candidate vital sign against the snapshot: the
name is present and the expected direction occurs in the recorded value
(used to state what the vital-sign loop computes). -/
def vitalMatchPred (snapshot : List (String × String)) (p : String × String) : Bool :=
  match lookupVS snapshot p.fst with
  | some v => strIn (lower p.snd) (lower v)
  | none => false

/-- Knowledge-base entry: digoxin toxicity, three observable symptoms,
typical onset 10 days. -/
def kbC2 : MedicationAdverseReaction :=
  { id := 7, medication_name := "Digoxin", generic_name := none, drug_class := none,
    reaction_name := "Digoxin toxicity", severity := "MAJOR", likelihood := none,
    typical_onset_hours := none, typical_onset_days := some 10,
    observable_symptoms := ["nausea", "vomiting", "dizziness"],
    vital_sign_changes := [], behavioral_changes := [], nursing_interventions := [],
    provider_notification_guidance := none, when_to_escalate := none,
    monitoring_recommendations := none, risk_factors := [] }

/-- Observation on day 10 with two standardized terms matching `kbC2`. -/
def obsC2 : PatientObservation :=
  { id := 5, patient_id := 1, facility_id := 1, observation_type := "SYMPTOM",
    observation_text := "nausea and vomiting", standardized_terms := ["nausea", "vomiting"],
    observation_date := 10, related_vital_signs := [],
    adr_surveillance_performed := false, potential_adr_detected := false }

/-- A 60-year-old non-hospice patient (no risk-factor boost). -/
def patC2 : Patient :=
  { id := 1, facility_id := 1, age := 60, is_hospice := false, comfort_measures_only := false }

/-- The alert `evaluate_correlation` produces for the C2 fixture: the
pre-boost score 2/3 fixes tier HIGH, then the onset boost lifts the
recorded final score to 23/30. -/
def alertC2 : ADRAlert :=
  { id := 0, patient_id := 1, facility_id := 1, medication_id := 3,
    observation_id := 5, known_adr_id := 7, suspected_reaction := "Digoxin toxicity",
    confidence_level := "HIGH", severity := "MAJOR",
    matching_symptoms := ["nausea", "vomiting"], matching_vital_signs := [],
    matching_behaviors := [], correlation_score := 23/30,
    days_since_medication_start := some 10, expected_onset_match := true,
    patient_risk_factors := [], nursing_interventions := [],
    suggested_provider_orders := [], provider_notification_urgency := "URGENT",
    requires_immediate_action := true, is_hospice_patient := false, status := "NEW",
    acknowledged_by_user_id := none, acknowledged_at := none,
    pharmacist_consulted := false, pharmacist_intervention_id := none,
    outcome := none, action_taken := none, escalation_guidance := none,
    investigation_notes := none, resolved_at := none, resolved_by_user_id := none }

/-- Knowledge-base entry with a single symptom and no vital signs. -/
def kbC4a : MedicationAdverseReaction :=
  { kbC2 with observable_symptoms := ["nausea"], typical_onset_days := none }

/-- The same entry plus one candidate vital sign that will not match. -/
def kbC4b : MedicationAdverseReaction :=
  { kbC4a with vital_sign_changes := [("bp", "increased")] }

/-- Observation matching the symptom, with a non-empty vital snapshot that
does not contain the candidate vital name "bp". -/
def obsC4 : PatientObservation :=
  { obsC2 with standardized_terms := ["nausea"], related_vital_signs := [("hr", "90")] }

/-- Digoxin prescription without a start date (no onset boost). -/
def medC4 : Medication := { medDigoxin with start_date := none }

/-- Alert for `kbC4a`: full symptom match, score 1. -/
def alertC4a : ADRAlert :=
  { alertC2 with confidence_level := "VERY_HIGH", matching_symptoms := ["nausea"],
                 correlation_score := 1, days_since_medication_start := none,
                 expected_onset_match := false }

/-- Alert for `kbC4b`: same matches, but the unmatched candidate vital sign
inflated the denominator, score 3/5. -/
def alertC4b : ADRAlert :=
  { alertC4a with confidence_level := "HIGH", correlation_score := 3/5 }

/-- Observation with no standardized terms and an empty vital snapshot. -/
def obsNoTerms : PatientObservation :=
  { obsC2 with id := 6, standardized_terms := [], related_vital_signs := [] }

/-- Store holding `obsNoTerms`, the active digoxin prescription and `kbC2`. -/
def dbC5 : DB :=
  { emptyDB with patients := [patientOne], medications := [medDigoxin],
                 observations := [obsNoTerms], known_adrs := [kbC2] }

/-
  Claim theorems.
-/

/-- Claim C3: through the exposed operations, no alert ever leaves a
terminal state — acknowledging any existing alert (in particular a
terminal one) is rejected with an error and leaves the store unchanged
(the line-397 AttributeError), pharmacist escalation and resolution always
roll back with no state change (their audit calls raise TypeError), and
the surveillance engine only appends newly created alerts, preserving
every existing row; hence the lifecycle never moves backward. -/
theorem C3_lifecycle_safety :
    (∀ (db : DB) (now : Nat) (user : User) (aid : Nat) (data : AcknowledgeRequest)
        (alert : ADRAlert),
      findAlert db aid = some alert → isTerminalStatus alert.status = true →
      ∃ code msg, acknowledge_alert db now user aid data = (.failure code msg, db))
    ∧ (∀ (db : DB) (now : Nat) (user : User) (aid : Nat) (data : AcknowledgeRequest),
      (acknowledge_alert db now user aid data).2 = db)
    ∧ (∀ (db : DB) (user : User) (aid : Nat) (notes : Option String),
      (escalate_to_pharmacist db user aid notes).2 = db)
    ∧ (∀ (db : DB) (now : Nat) (user : User) (aid : Nat) (data : ResolveRequest),
      (resolve_alert db now user aid data).2 = db)
    ∧ (∀ (db : DB) (oid : Nat) (a : ADRAlert),
      a ∈ db.alerts → a ∈ (analyze_observation db oid).2.alerts) := by
  refine ⟨?_, ?_, ?_, ?_, ?_⟩
  · intro db now user aid data alert hfind hterm
    unfold acknowledge_alert
    rw [hfind]
    exact ⟨_, _, rfl⟩
  · intro db now user aid data
    unfold acknowledge_alert
    rcases h : findAlert db aid with _ | a <;> rfl
  · intro db user aid notes
    unfold escalate_to_pharmacist
    rcases h : findAlert db aid with _ | a
    · rfl
    · dsimp only
      split_ifs <;> rfl
  · intro db now user aid data
    unfold resolve_alert
    rcases h : findAlert db aid with _ | a
    · rfl
    · dsimp only
      split_ifs <;> rfl
  · intro db oid a ha
    unfold analyze_observation
    rcases h : findObservation db oid with _ | obs
    · exact ha
    · dsimp only
      split_ifs with h1 h2
      · exact ha
      · exact List.mem_append_left _ ha
      · exact List.mem_append_left _ ha

/-- Claim C3 witness: the first prong applied to the concrete terminal
alert of `dbC3`. -/
theorem C3_witness :
    ∃ code msg, acknowledge_alert dbC3 1000 userRN 1 reqFull = (.failure code msg, dbC3) :=
  C3_lifecycle_safety.1 dbC3 1000 userRN 1 reqFull
    { baseAlert with status := "CONFIRMED_ADR" } (by decide) (by decide)

/-- Claim C6: the acknowledge route answers a 500 AttributeError before
creating anything, so no acknowledgment is ever created through it; the
unreachable creation tail does fix `expires_at = acknowledged_at + 12h`,
and validity is exactly non-expiry plus the three verification flags — in
particular false after expiry even with every flag true. -/
theorem C6_route_fault_and_intended_expiry :
    acknowledge_alert dbC6 1000 userRN 1 reqFull
      = (.failure 500 "AttributeError: ADRAlert object has no attribute alert_type", dbC6)
    ∧ acknowledge_alert_body dbC6 1000 userRN 1 reqFull = (.created ackC6 alertC6, dbC6after)
    ∧ ackC6.expires_at = ackC6.acknowledged_at + 12 * 3600
    ∧ ackC6.is_valid 2000 = true
    ∧ ackNoVerify.is_valid 2000 = false
    ∧ ackC6.is_valid 50000 = false :=
  ⟨by decide, by decide, by decide, by decide, by decide, by decide⟩

/-- Claim C8: the acknowledge route answers a 500 AttributeError on every
request for an existing alert — before the verification validation — so
the VALIDATION_ERROR rejection the claim describes never happens, even
though the unreachable handler body implements exactly that 400 rejection
with no state change. -/
theorem C8_route_faults_before_validation :
    acknowledge_alert dbC6 1000 userRN 1 reqMissingVerification
      = (.failure 500 "AttributeError: ADRAlert object has no attribute alert_type", dbC6)
    ∧ acknowledge_alert_body dbC6 1000 userRN 1 reqMissingVerification
      = (.failure 400 "All safety verifications required", dbC6) :=
  ⟨by decide, by decide⟩

/-- Claim C9: a repeat acknowledgment while a valid one exists answers the
same 500 AttributeError instead of returning the existing record, though
the unreachable handler body implements exactly the claimed idempotent
return with no state change. -/
theorem C9_route_faults_before_idempotency :
    acknowledge_alert dbC6after 2000 userRN 1 reqFull
      = (.failure 500 "AttributeError: ADRAlert object has no attribute alert_type", dbC6after)
    ∧ acknowledge_alert_body dbC6after 2000 userRN 1 reqFull
      = (.alreadyAcknowledged ackC6, dbC6after) :=
  ⟨by decide, by decide⟩

/-- Claim C10 counterexample: evaluating an unknown observation id does not
surface any error — the service returns a plain empty alert list and the
store is untouched (the embedded operation has no error outcome at all). -/
theorem C10_counterexample :
    findObservation dbC10 99 = none
    ∧ analyze_observation dbC10 99 = ([], dbC10) := by
  decide

/-- Claim C10 (amended): for an unknown observation id the evaluation
operation silently returns an empty alert list and performs no state
change; no NOT_FOUND error is raised. -/
theorem C10_unknown_observation_silent (db : DB) (oid : Nat)
    (h : findObservation db oid = none) :
    analyze_observation db oid = ([], db) := by
  unfold analyze_observation
  rw [h]

/-- Claim C10 witness: the amended theorem applied to the concrete store. -/
theorem C10_witness : analyze_observation dbC10 99 = ([], dbC10) :=
  C10_unknown_observation_silent dbC10 99 (by decide)

/-- A list with a member is not empty (Boolean form used by the gates). -/
lemma not_isEmpty_of_mem {α : Type} {l : List α} {a : α} (h : a ∈ l) :
    ¬ l.isEmpty = true := by
  intro he
  rw [List.isEmpty_iff] at he
  subst he
  cases h

/-- Claim C1: when the staff member's most recent acknowledgment for an
active alert tied to the administered medication is a HOLD_MEDICATION —
even non-expired and with all three verifications true — the administer
safety gate does not allow the administration. -/
theorem C1_hold_blocks_administration (db : DB) (now : Nat) (user : User) (mid : Nat)
    (med : Medication) (pat : Patient) (alert : ADRAlert) (k : ADRAlertAcknowledgment)
    (hmed : findMedication db mid = some med)
    (hpat : findPatient db med.patient_id = some pat)
    (hacc : pat.facility_id = user.facility_id ∨ user.role = "Admin")
    (hmem : alert ∈ db.alerts)
    (hap : alert.patient_id = pat.id)
    (haf : alert.facility_id = user.facility_id)
    (hactive : alert.is_active = true)
    (ham : alert.medication_id = mid)
    (hk : mostRecentAck db alert.id user.id = some k)
    (khold : k.action_taken = "HOLD_MEDICATION")
    (knexp : k.is_expired now = false)
    (kv : k.verified_reaction_awareness = true ∧ k.verified_monitoring_parameters = true
          ∧ k.verified_escalation_criteria = true) :
    (administer_medication_check db now user mid "given").allowed = false := by
  unfold administer_medication_check
  rw [hmed]
  dsimp only
  rw [hpat]
  dsimp only
  have hna : ¬ (pat.facility_id ≠ user.facility_id ∧ user.role ≠ "Admin") := by
    rcases hacc with h | h <;> simp [h]
  rw [if_neg hna, if_neg (by simp : ¬ ("given" ≠ "given"))]
  have hmemA : alert ∈ activeAlertsFor db user pat.id := by
    unfold activeAlertsFor
    exact List.mem_filter.mpr ⟨hmem, by simp [hap, haf, hactive]⟩
  rw [if_neg (not_isEmpty_of_mem hmemA)]
  have hmemHeld : (alert, k) ∈ (activeAlertsFor db user pat.id).filterMap
      (fun a => match mostRecentAck db a.id user.id with
        | some k =>
          if (!k.is_expired now) = true ∧ k.action_taken = "HOLD_MEDICATION"
              ∧ a.medication_id = mid
          then some (a, k) else none
        | none => none) := by
    refine List.mem_filterMap.mpr ⟨alert, hmemA, ?_⟩
    rw [hk]
    simp [knexp, khold, ham]
  rw [if_pos (not_isEmpty_of_mem hmemHeld)]
  rfl

/-- Claim C7: the administer safety gate blocks whenever some active alert
has no acknowledgment, or only an expired one, from the requesting staff
member; and it allows administration when every active alert carries a
valid, non-hold most-recent acknowledgment from that staff member (so no
hold applies to the requested medication). -/
theorem C7_gate_blocking_and_allowing :
    (∀ (db : DB) (now : Nat) (user : User) (mid : Nat) (med : Medication)
        (pat : Patient) (alert : ADRAlert),
      findMedication db mid = some med →
      findPatient db med.patient_id = some pat →
      (pat.facility_id = user.facility_id ∨ user.role = "Admin") →
      alert ∈ activeAlertsFor db user pat.id →
      (mostRecentAck db alert.id user.id = none
        ∨ ∃ k, mostRecentAck db alert.id user.id = some k ∧ k.is_expired now = true) →
      (administer_medication_check db now user mid "given").allowed = false)
    ∧ (∀ (db : DB) (now : Nat) (user : User) (mid : Nat) (med : Medication) (pat : Patient),
      findMedication db mid = some med →
      findPatient db med.patient_id = some pat →
      (pat.facility_id = user.facility_id ∨ user.role = "Admin") →
      (∀ a ∈ activeAlertsFor db user pat.id,
        ∃ k, mostRecentAck db a.id user.id = some k ∧ k.is_valid now = true
          ∧ k.action_taken ≠ "HOLD_MEDICATION") →
      (administer_medication_check db now user mid "given").allowed = true) := by
  constructor
  · intro db now user mid med pat alert hmed hpat hacc hmemA hbad
    unfold administer_medication_check
    rw [hmed]
    dsimp only
    rw [hpat]
    dsimp only
    have hna : ¬ (pat.facility_id ≠ user.facility_id ∧ user.role ≠ "Admin") := by
      rcases hacc with h | h <;> simp [h]
    rw [if_neg hna, if_neg (by simp : ¬ ("given" ≠ "given"))]
    rw [if_neg (not_isEmpty_of_mem hmemA)]
    have hdis : ¬ ((activeAlertsFor db user pat.id).filter
          (fun a => (mostRecentAck db a.id user.id).isNone)).isEmpty = true
        ∨ ¬ ((activeAlertsFor db user pat.id).filter
          (fun a => match mostRecentAck db a.id user.id with
            | some k => k.is_expired now
            | none => false)).isEmpty = true := by
      rcases hbad with hnone | ⟨k, hk, hexp⟩
      · left
        have hm : alert ∈ (activeAlertsFor db user pat.id).filter
            (fun a => (mostRecentAck db a.id user.id).isNone) :=
          List.mem_filter.mpr ⟨hmemA, by simp [hnone]⟩
        exact not_isEmpty_of_mem hm
      · right
        have hm : alert ∈ (activeAlertsFor db user pat.id).filter
            (fun a => match mostRecentAck db a.id user.id with
              | some k => k.is_expired now
              | none => false) :=
          List.mem_filter.mpr ⟨hmemA, by rw [hk]; simpa using hexp⟩
        exact not_isEmpty_of_mem hm
    by_cases hheld : ¬ ((activeAlertsFor db user pat.id).filterMap
        (fun a => match mostRecentAck db a.id user.id with
          | some k =>
            if (!k.is_expired now) = true ∧ k.action_taken = "HOLD_MEDICATION"
                ∧ a.medication_id = mid
            then some (a, k) else none
          | none => none)).isEmpty = true
    · rw [if_pos hheld]
      rfl
    · rw [if_neg hheld, if_pos hdis]
      rfl
  · intro db now user mid med pat hmed hpat hacc hall
    unfold administer_medication_check
    rw [hmed]
    dsimp only
    rw [hpat]
    dsimp only
    have hna : ¬ (pat.facility_id ≠ user.facility_id ∧ user.role ≠ "Admin") := by
      rcases hacc with h | h <;> simp [h]
    rw [if_neg hna, if_neg (by simp : ¬ ("given" ≠ "given"))]
    by_cases hempty : (activeAlertsFor db user pat.id).isEmpty = true
    · rw [if_pos hempty]
      rfl
    · rw [if_neg hempty]
      have hheld : (activeAlertsFor db user pat.id).filterMap
          (fun a => match mostRecentAck db a.id user.id with
            | some k =>
              if (!k.is_expired now) = true ∧ k.action_taken = "HOLD_MEDICATION"
                  ∧ a.medication_id = mid
              then some (a, k) else none
            | none => none) = [] := by
        refine List.filterMap_eq_nil_iff.mpr ?_
        intro a hmemA
        obtain ⟨k, hk, -, khold⟩ := hall a hmemA
        rw [hk]
        simp [khold]
      have hunack : (activeAlertsFor db user pat.id).filter
          (fun a => (mostRecentAck db a.id user.id).isNone) = [] := by
        refine List.filter_eq_nil_iff.mpr ?_
        intro a hmemA
        obtain ⟨k, hk, -, -⟩ := hall a hmemA
        simp [hk]
      have hexp : (activeAlertsFor db user pat.id).filter
          (fun a => match mostRecentAck db a.id user.id with
            | some k => k.is_expired now
            | none => false) = [] := by
        refine List.filter_eq_nil_iff.mpr ?_
        intro a hmemA
        obtain ⟨k, hk, kvalid, -⟩ := hall a hmemA
        rw [hk]
        have : k.is_expired now = false := by
          rcases hb : k.is_expired now with - | -
          · rfl
          · exfalso
            rw [ADRAlertAcknowledgment.is_valid, hb] at kvalid
            simp at kvalid
        simp [this]
      rw [hheld, hunack, hexp]
      simp [AdministerSafety.allowed]

/-- Claim C1 witness: the theorem applied to the concrete hold at instant
2000, well before the acknowledgment expires. -/
theorem C1_witness : (administer_medication_check dbC1 2000 userRN 3 "given").allowed = false :=
  C1_hold_blocks_administration dbC1 2000 userRN 3 medDigoxin patientOne baseAlert ackHold
    (by decide) (by decide) (by decide) (by decide) (by decide) (by decide)
    (by decide) (by decide) (by decide) (by decide) (by decide) (by decide)

/-- Claim C7 witness: with no acknowledgment on file the gate blocks; with a
valid non-hold acknowledgment on every active alert it allows. -/
theorem C7_witness :
    (administer_medication_check dbC6 1000 userRN 3 "given").allowed = false
    ∧ (administer_medication_check dbC6after 2000 userRN 3 "given").allowed = true :=
  ⟨C7_gate_blocking_and_allowing.1 dbC6 1000 userRN 3 medDigoxin patientOne baseAlert
      (by decide) (by decide) (by decide) (by decide) (Or.inl (by decide)),
   C7_gate_blocking_and_allowing.2 dbC6after 2000 userRN 3 medDigoxin patientOne
      (by decide) (by decide) (by decide)
      (by
        intro a ha
        have hl : activeAlertsFor dbC6after userRN patientOne.id = [alertC6] := by decide
        rw [hl] at ha
        have haq : a = alertC6 := by simpa using ha
        subst haq
        exact ⟨ackC6, by decide, by decide, by decide⟩)⟩

/-- Pre-boost score of the C2 fixture: 2 of 3 symptoms, no vitals, no
behaviors, hence 6/9 = 2/3. -/
lemma baseScoreC2 : correlationBaseScore obsC2 kbC2 = 2/3 := by
  have hs : symptomMatches obsC2 kbC2 = ["nausea", "vomiting"] := by decide
  have hv : vitalScan obsC2 kbC2 = ([], 0, 0) := by rfl
  have hb : behaviorMatches obsC2 kbC2 = [] := by rfl
  have hss : symptomSetSize kbC2 = 3 := by decide
  have hnum : correlationNumerator obsC2 kbC2 = 6 := by
    rw [correlationNumerator, hs, hv, hb]
    norm_num
  have hden : correlationDenominator obsC2 kbC2 = 9 := by
    rw [correlationDenominator, hs, hv, hb, hss]
    norm_num
  rw [correlationBaseScore, hnum, hden]
  norm_num [min_def]

/-- The onset boost fires for the C2 fixture (day 10 vs typical 10 days)
and lifts the score by 0.10. -/
lemma onsetC2 : onsetAdjust medDigoxin obsC2 kbC2 (2/3) = (true, some 10, 23/30) := by
  norm_num [onsetAdjust, medDigoxin, obsC2, kbC2, truthyInt, min_def, max_def]

/-- Full evaluation of the C2 fixture: confidence HIGH was fixed by the
pre-boost score 2/3, while the recorded final score is 23/30. -/
lemma evalC2_eq : evaluate_correlation obsC2 medDigoxin kbC2 patC2 = some alertC2 := by
  have hs : symptomMatches obsC2 kbC2 = ["nausea", "vomiting"] := by decide
  have hv : vitalScan obsC2 kbC2 = ([], 0, 0) := by rfl
  have hb : behaviorMatches obsC2 kbC2 = [] := by rfl
  have hconf : confidenceOf (2/3) = "HIGH" := by norm_num [confidenceOf]
  have hrisk : riskAdjust patC2 kbC2 (23/30) = ([], 23/30) := by rfl
  have hurg : urgencyOf (patC2.is_hospice || patC2.comfort_measures_only) kbC2.severity (23/30)
      = ("URGENT", true) := by
    norm_num [urgencyOf, patC2, kbC2]
    all_goals decide
  unfold evaluate_correlation
  dsimp only
  rw [hs, hv, hb, baseScoreC2]
  dsimp only
  rw [onsetC2]
  dsimp only
  rw [hconf, hrisk, hurg]
  dsimp only
  split_ifs with hgate
  · exact absurd hgate (by simp)
  · rfl

/-- Full evaluation of the C4 fixture without the candidate vital sign:
score 3/3 = 1. -/
lemma evalC4a_eq : evaluate_correlation obsC4 medC4 kbC4a patC2 = some alertC4a := by
  have hs : symptomMatches obsC4 kbC4a = ["nausea"] := by decide
  have hv : vitalScan obsC4 kbC4a = ([], 0, 0) := by rfl
  have hb : behaviorMatches obsC4 kbC4a = [] := by rfl
  have hss : symptomSetSize kbC4a = 1 := by decide
  have hnum : correlationNumerator obsC4 kbC4a = 3 := by
    rw [correlationNumerator, hs, hv, hb]
    norm_num
  have hden : correlationDenominator obsC4 kbC4a = 3 := by
    rw [correlationDenominator, hs, hv, hb, hss]
    norm_num
  have hbase : correlationBaseScore obsC4 kbC4a = 1 := by
    rw [correlationBaseScore, hnum, hden]
    norm_num [min_def]
  have hconf : confidenceOf (1 : ℚ) = "VERY_HIGH" := by norm_num [confidenceOf]
  have honset : onsetAdjust medC4 obsC4 kbC4a 1 = (false, none, 1) := by rfl
  have hrisk : riskAdjust patC2 kbC4a 1 = ([], 1) := by rfl
  have hurg : urgencyOf (patC2.is_hospice || patC2.comfort_measures_only) kbC4a.severity (1 : ℚ)
      = ("URGENT", true) := by
    norm_num [urgencyOf, patC2, kbC4a, kbC2]
    all_goals decide
  unfold evaluate_correlation
  dsimp only
  rw [hs, hv, hb, hbase]
  dsimp only
  rw [honset]
  dsimp only
  rw [hconf, hrisk, hurg]
  dsimp only
  split_ifs with hgate
  · exact absurd hgate (by simp)
  · rfl

/-- Full evaluation of the C4 fixture with one unmatched candidate vital
sign: the denominator grows by 2, score 3/5. -/
lemma evalC4b_eq : evaluate_correlation obsC4 medC4 kbC4b patC2 = some alertC4b := by
  have hs : symptomMatches obsC4 kbC4b = ["nausea"] := by decide
  have hv : vitalScan obsC4 kbC4b = ([], 0, 0 + 2) := by rfl
  have hb : behaviorMatches obsC4 kbC4b = [] := by rfl
  have hss : symptomSetSize kbC4b = 1 := by decide
  have hnum : correlationNumerator obsC4 kbC4b = 3 := by
    rw [correlationNumerator, hs, hv, hb]
    norm_num
  have hden : correlationDenominator obsC4 kbC4b = 5 := by
    rw [correlationDenominator, hs, hv, hb, hss]
    norm_num
  have hbase : correlationBaseScore obsC4 kbC4b = 3/5 := by
    rw [correlationBaseScore, hnum, hden]
    norm_num [min_def]
  have hconf : confidenceOf (3/5 : ℚ) = "HIGH" := by norm_num [confidenceOf]
  have honset : onsetAdjust medC4 obsC4 kbC4b (3/5) = (false, none, 3/5) := by rfl
  have hrisk : riskAdjust patC2 kbC4b (3/5) = ([], 3/5) := by rfl
  have hurg : urgencyOf (patC2.is_hospice || patC2.comfort_measures_only) kbC4b.severity (3/5 : ℚ)
      = ("URGENT", true) := by
    norm_num [urgencyOf, patC2, kbC4b, kbC4a, kbC2]
    all_goals decide
  unfold evaluate_correlation
  dsimp only
  rw [hs, hv, hb, hbase]
  dsimp only
  rw [honset]
  dsimp only
  rw [hconf, hrisk, hurg]
  dsimp only
  split_ifs with hgate
  · exact absurd hgate (by simp)
  · rfl

/-- One vital-sign iteration in closed form: a match appends the name and
adds 2 to the score, and every candidate adds 2 to the max-score. -/
lemma vitalStep_eq (snap : List (String × String)) (st : List String × ℚ × ℚ)
    (p : String × String) :
    vitalStep snap st p
      = (if vitalMatchPred snap p then st.1 ++ [p.fst] else st.1,
         if vitalMatchPred snap p then st.2.1 + 2 else st.2.1,
         st.2.2 + 2) := by
  unfold vitalStep vitalMatchPred
  cases hl : lookupVS snap p.fst with
  | none => simp
  | some v => by_cases hsv : strIn (lower p.snd) (lower v) = true <;> simp [hsv]

/-- Closed form of the vital-sign loop from any accumulator. -/
lemma vitalScan_foldl (snap : List (String × String)) (l : List (String × String)) :
    ∀ st : List String × ℚ × ℚ,
      l.foldl (vitalStep snap) st
        = (st.1 ++ (l.filter (vitalMatchPred snap)).map Prod.fst,
           st.2.1 + 2 * (((l.filter (vitalMatchPred snap)).length : ℚ)),
           st.2.2 + 2 * ((l.length : ℚ))) := by
  induction l with
  | nil => intro st; simp
  | cons p rest ih =>
    intro st
    rw [List.foldl_cons, vitalStep_eq, ih]
    by_cases hm : vitalMatchPred snap p = true
    · rw [List.filter_cons_of_pos hm]
      simp only [hm, if_true, List.length_cons, List.map_cons, Prod.mk.injEq]
      refine ⟨by simp, by push_cast; ring, by push_cast; ring⟩
    · rw [List.filter_cons_of_neg (by simp [hm])]
      simp only [hm, if_false, List.length_cons, Prod.mk.injEq]
      refine ⟨by simp, by push_cast; ring, by push_cast; ring⟩

/-- A fold of list appends collapses when every piece is empty. -/
lemma foldr_append_eq_nil {α β : Type} (l : List α) (f : α → List β)
    (h : ∀ a ∈ l, f a = []) :
    l.foldr (fun a acc => f a ++ acc) [] = [] := by
  induction l with
  | nil => rfl
  | cons x xs ih =>
    rw [List.foldr_cons, h x (List.mem_cons_self x xs), List.nil_append]
    exact ih (fun a ha => h a (List.mem_cons_of_mem x ha))

/-- Claim C2 counterexample: the recorded confidence tier of the C2 alert
is HIGH although the thresholds applied to its recorded final (boosted)
score 23/30 give VERY_HIGH — tiering is not computed on the final score. -/
theorem C2_counterexample :
    evaluate_correlation obsC2 medDigoxin kbC2 patC2 = some alertC2
    ∧ alertC2.correlation_score = 23/30
    ∧ alertC2.confidence_level = "HIGH"
    ∧ confidenceOf (23/30) = "VERY_HIGH"
    ∧ alertC2.confidence_level ≠ confidenceOf alertC2.correlation_score := by
  have h4 : confidenceOf (23/30) = "VERY_HIGH" := by norm_num [confidenceOf]
  refine ⟨evalC2_eq, rfl, rfl, h4, ?_⟩
  have hsc : alertC2.correlation_score = 23/30 := rfl
  rw [hsc, h4]
  decide

/-- Claim C2 (amended): the recorded confidence tier is the threshold
function applied to the pre-boost correlation score (before the onset and
risk boosts), and that threshold function is monotone in its argument. -/
theorem C2_confidence_from_preboost :
    (∀ (obs : PatientObservation) (med : Medication) (kb : MedicationAdverseReaction)
        (pat : Patient) (alert : ADRAlert),
      evaluate_correlation obs med kb pat = some alert →
      alert.confidence_level = confidenceOf (correlationBaseScore obs kb))
    ∧ (∀ s t : ℚ, s ≤ t →
      confidenceRank (confidenceOf s) ≤ confidenceRank (confidenceOf t)) := by
  constructor
  · intro obs med kb pat alert h
    unfold evaluate_correlation at h
    dsimp only at h
    by_cases hgate : ((symptomMatches obs kb).isEmpty = true
        ∧ (vitalScan obs kb).1.length + (behaviorMatches obs kb).length < 2)
    · rw [if_pos hgate] at h
      simp at h
    · rw [if_neg hgate] at h
      simp only [Option.some.injEq] at h
      rw [← h]
  · intro s t hst
    unfold confidenceOf
    split_ifs with h1 h2 h3 h4 h5 h6 <;> first | decide | linarith

/-- Claim C2 witness: both parts of the amended theorem applied to
concrete inputs. -/
theorem C2_witness :
    alertC2.confidence_level = confidenceOf (correlationBaseScore obsC2 kbC2)
    ∧ confidenceRank (confidenceOf (1/4 : ℚ)) ≤ confidenceRank (confidenceOf (1/2 : ℚ)) :=
  ⟨C2_confidence_from_preboost.1 obsC2 medDigoxin kbC2 patC2 alertC2 evalC2_eq,
   C2_confidence_from_preboost.2 (1/4) (1/2) (by norm_num)⟩

/-- Claim C4 counterexample: adding one candidate vital sign that matches
nothing (name absent from the snapshot) changes the correlation score of
the emitted alert from 1 to 3/5, so an unmatched candidate vital is not
neutral: it still adds 2.0 to the denominator. -/
theorem C4_counterexample :
    kbC4b = { kbC4a with vital_sign_changes := [("bp", "increased")] }
    ∧ vitalMatchPred obsC4.related_vital_signs ("bp", "increased") = false
    ∧ evaluate_correlation obsC4 medC4 kbC4a patC2 = some alertC4a
    ∧ evaluate_correlation obsC4 medC4 kbC4b patC2 = some alertC4b
    ∧ alertC4a.correlation_score = 1
    ∧ alertC4b.correlation_score = 3/5
    ∧ alertC4a.matching_vital_signs = alertC4b.matching_vital_signs :=
  ⟨rfl, by decide, evalC4a_eq, evalC4b_eq, rfl, rfl, rfl⟩

/-- Claim C4 (amended): with a non-empty snapshot and non-empty candidate
vitals, the vital-sign loop adds 2.0 to the numerator exactly for matching
candidates (name present and direction substring) but 2.0 to the
denominator for every candidate vital sign. -/
theorem C4_vital_contributions (obs : PatientObservation) (kb : MedicationAdverseReaction)
    (ho : obs.related_vital_signs.isEmpty = false)
    (hk : kb.vital_sign_changes.isEmpty = false) :
    (vitalScan obs kb).2.1 = 2 * (((vitalScan obs kb).1.length : ℚ))
    ∧ (vitalScan obs kb).2.2 = 2 * ((kb.vital_sign_changes.length : ℚ))
    ∧ (vitalScan obs kb).1 = (kb.vital_sign_changes.filter
        (vitalMatchPred obs.related_vital_signs)).map Prod.fst := by
  unfold vitalScan
  rw [if_neg (by simp [ho, hk])]
  rw [vitalScan_foldl]
  refine ⟨?_, ?_, ?_⟩ <;> simp

/-- Claim C4 witness: the amended theorem applied to the C4 fixture. -/
theorem C4_witness :
    (vitalScan obsC4 kbC4b).2.1 = 2 * (((vitalScan obsC4 kbC4b).1.length : ℚ))
    ∧ (vitalScan obsC4 kbC4b).2.2 = 2 * ((kbC4b.vital_sign_changes.length : ℚ))
    ∧ (vitalScan obsC4 kbC4b).1 = (kbC4b.vital_sign_changes.filter
        (vitalMatchPred obsC4.related_vital_signs)).map Prod.fst :=
  C4_vital_contributions obsC4 kbC4b (by decide) (by decide)

/-- Claim C5: an alert is emitted only if some symptom matched or the
combined vital/behavior match count is at least 2; and an observation with
no standardized terms and fewer than 2 combined matches against every
candidate yields an empty alert list from the evaluation service. -/
theorem C5_alert_gate :
    (∀ (obs : PatientObservation) (med : Medication) (kb : MedicationAdverseReaction)
        (pat : Patient) (alert : ADRAlert),
      evaluate_correlation obs med kb pat = some alert →
      alert.matching_symptoms ≠ []
        ∨ 2 ≤ alert.matching_vital_signs.length + alert.matching_behaviors.length)
    ∧ (∀ (db : DB) (oid : Nat) (obs : PatientObservation),
      findObservation db oid = some obs →
      obs.standardized_terms = [] →
      (∀ med ∈ db.medications, med.patient_id = obs.patient_id → med.status = "active" →
        ∀ kb ∈ candidateADRs db med,
          (vitalScan obs kb).1.length + (behaviorMatches obs kb).length < 2) →
      (analyze_observation db oid).1 = []) := by
  constructor
  · intro obs med kb pat alert h
    unfold evaluate_correlation at h
    dsimp only at h
    by_cases hgate : ((symptomMatches obs kb).isEmpty = true
        ∧ (vitalScan obs kb).1.length + (behaviorMatches obs kb).length < 2)
    · rw [if_pos hgate] at h
      simp at h
    · rw [if_neg hgate] at h
      simp only [Option.some.injEq] at h
      rw [← h]
      dsimp only
      rw [not_and_or] at hgate
      rcases hgate with h1 | h2
      · left
        intro hnil
        exact h1 (by simp [hnil])
      · right
        exact not_lt.mp h2
  · intro db oid obs hfind hterms hsmall
    unfold analyze_observation
    rw [hfind]
    dsimp only
    by_cases hempty : (db.medications.filter
        (fun m => m.patient_id == obs.patient_id && m.status == "active")).isEmpty = true
    · rw [if_pos hempty]
    · rw [if_neg hempty]
      have halerts : (db.medications.filter
            (fun m => m.patient_id == obs.patient_id && m.status == "active")).foldr
          (fun med acc => (candidateADRs db med).filterMap
            (fun kb => evaluate_correlation obs med kb
              ((findPatient db obs.patient_id).getD missingPatient)) ++ acc) [] = [] := by
        apply foldr_append_eq_nil
        intro med hmed
        obtain ⟨hmem, hpred⟩ := List.mem_filter.mp hmed
        simp only [Bool.and_eq_true, beq_iff_eq] at hpred
        apply List.filterMap_eq_nil_iff.mpr
        intro kb hkb
        have hlt := hsmall med hmem hpred.1 hpred.2 kb hkb
        unfold evaluate_correlation
        dsimp only
        rw [if_pos ⟨by simp [symptomMatches, hterms], hlt⟩]
      rw [halerts]
      rfl

/-- Claim C5 witness: both parts applied to concrete stores. -/
theorem C5_witness :
    (alertC2.matching_symptoms ≠ []
      ∨ 2 ≤ alertC2.matching_vital_signs.length + alertC2.matching_behaviors.length)
    ∧ (analyze_observation dbC5 6).1 = [] :=
  ⟨C5_alert_gate.1 obsC2 medDigoxin kbC2 patC2 alertC2 evalC2_eq,
   C5_alert_gate.2 dbC5 6 obsNoTerms (by decide) (by decide) (by decide)⟩

end Outreach
